import Mathlib

/-!
# Verification of the RustChat turn-coordination and profile-reconciliation core

Shallow embedding of `src/src/main.rs` and `src/Experimental/main.rs`.
External effects (terminal I/O, HTTP, the file system, the `difflib`
sequence matcher) are modelled explicitly: the file system as a partial map
from paths to contents, HTTP responses as status/body data passed in, the
external diff library as an oracle producing a list of opcodes, and the
observable actions of one loop iteration as an event trace.
-/

namespace RustChat

/-- A `serde_json::Value`, as used for conversation-log entries and response
bodies. Numbers are modelled as integers; no claim exercises fractions. -/
inductive Json where
  | null
  | bool (b : Bool)
  | num (n : Int)
  | str (s : String)
  | arr (elems : List Json)
  | obj (fields : List (String × Json))

/-- Field access `value[key]` (serde_json read indexing): lookup on an
object, `Null` on a missing field or a non-object. -/
def Json.getKey : Json → String → Json
  | .obj fields, k =>
    match fields.find? (fun p => p.1 == k) with
    | some p => p.2
    | none => .null
  | _, _ => .null

/-- Element access `value[index]` (serde_json read indexing): lookup on an
array, `Null` out of range or on a non-array. -/
def Json.getIdx : Json → Nat → Json
  | .arr elems, i => elems.getD i .null
  | _, _ => .null

/-- Method `Value::get(index)`: `Some` element of an array, `None`
otherwise. -/
def Json.arrGet : Json → Nat → Option Json
  | .arr elems, i => elems.get? i
  | _, _ => none

/-- Method `Value::as_str()`. -/
def Json.asStr : Json → Option String
  | .str s => some s
  | _ => none

/-- The `ChatMessage { role, content }` struct of `Experimental/main.rs`;
also models the `json!({"role": ..., "content": ...})` log entries. -/
structure ChatMessage where
  role : String
  content : String
deriving DecidableEq

/-- The file system visible to the program: a map from paths to contents.
`none` means reading that path fails. -/
def Fs : Type := String → Option String

/-- Whole-file overwrite, `fs::write(path, content)`. -/
def fsWrite (fs : Fs) (path content : String) : Fs :=
  fun q => if q = path then some content else fs q

/-- A file operation performed by the program, recorded for frame
reasoning. -/
inductive FileOp where
  | read (path : String)
  | write (path : String) (content : String)
deriving DecidableEq

def FileOp.isWrite : FileOp → Bool
  | .write _ _ => true
  | _ => false

def FileOp.opPath : FileOp → String
  | .read p => p
  | .write p _ => p

/-- One opcode of the external `difflib::sequencematcher::SequenceMatcher`:
a tag (`"equal"`, `"insert"`, `"delete"`, `"replace"`) and four span
indices. -/
structure Opcode where
  tag : String
  i1 : Nat
  i2 : Nat
  j1 : Nat
  j2 : Nat
deriving DecidableEq

/-- The diff library is outside the repository; it is modelled as an oracle
from the two compared texts to the opcode list `get_opcodes()` returns. -/
def Matcher : Type := String → String → List Opcode

/-- The count
`diff.get_opcodes().iter().filter(|&&(tag, ...)| tag != "equal").count()`
computed in `update_profile`. -/
def num_differences (ops : List Opcode) : Nat :=
  (ops.filter (fun op => op.tag ≠ "equal")).length

/-- The fixed `update_data` message list built in `update_profile`. -/
def update_data : List ChatMessage :=
  [⟨"system", "Profile_check"⟩, ⟨"user", "user_chat_log_content"⟩]

/-- The revised profile text extracted in `update_profile`:
`response_body["choices"][0]["message"]["content"].as_str().unwrap_or_default()`. -/
def user_profile_updated (body : Json) : String :=
  ((((body.getKey "choices").getIdx 0).getKey "message").getKey
    "content").asStr.getD ""

/-- An observable action of one iteration of the `main` loop, used to state
ordering and logging properties. -/
inductive Event where
  | appendUser (content : String)
  | spawnIndicator
  | request (messages : List ChatMessage)
  | signalStop
  | awaitIndicator
  | render (text : String)
  | appendAssistant (content : String)
  | profileRequest (messages : List ChatMessage)
  | errorExit (msg : String)
deriving DecidableEq

def Event.isAppendUser : Event → Bool
  | .appendUser _ => true
  | _ => false

/-- Outcome of one `update_profile` call: the resulting file system (or the
propagated error), the file operations performed, and the request events
emitted. -/
structure ProfileResult where
  result : Except String Fs
  ops : List FileOp
  events : List Event

/-- The function `update_profile(api_key, userprofile, backup_userprofile)`
of `Experimental/main.rs`. `status` and `parsed` are the HTTP status and
the `response.json::<Value>()` outcome of the reconciliation request
(`none` models a body that fails to parse, propagated by `?`); `m` is the
external sequence-matcher oracle. -/
def update_profile (fs : Fs) (userprofile backup_userprofile : String)
    (status : Nat) (parsed : Option Json) (m : Matcher) : ProfileResult :=
  match fs userprofile with
  | none => ⟨.error "profile read failed", [.read userprofile], []⟩
  | some original_data =>
    match parsed with
    | none =>
      ⟨.error "response body parse failed", [.read userprofile],
        [.profileRequest update_data]⟩
    | some response_body =>
      let updated := user_profile_updated response_body
      if num_differences (m original_data updated) > 200 then
        match fs backup_userprofile with
        | none =>
          ⟨.error "backup read failed",
            [.read userprofile, .read backup_userprofile],
            [.profileRequest update_data]⟩
        | some restored_data =>
          ⟨.ok (fsWrite fs userprofile restored_data),
            [.read userprofile, .read backup_userprofile,
              .write userprofile restored_data],
            [.profileRequest update_data]⟩
      else
        ⟨.ok (fsWrite fs userprofile updated),
          [.read userprofile, .write userprofile updated],
          [.profileRequest update_data]⟩

/-- The check `StatusCode::is_success()` of reqwest: the 2xx range. -/
def status_is_success (status : Nat) : Bool :=
  200 ≤ status && status < 300

/-- An HTTP response from the completion service: status code, raw body
text (`response.text()` would return it), and the result of parsing the
body as JSON (`response.json::<Value>()`; `none` models a parse failure). -/
structure HttpResponse where
  status : Nat
  text : String
  parsed : Option Json

/-- The function `query_gpt(conversation_log, verbose)`, identical in both
`main.rs` files, modelled on the response the service returns: on a success
status it parses the body and extracts
`res["choices"].get(0).and_then(|c| c["message"]["content"].as_str()).unwrap_or_default()`;
otherwise it produces the error `"API call failed: "` followed by the body
text. -/
def query_gpt (resp : HttpResponse) : Except String String :=
  if status_is_success resp.status then
    match resp.parsed with
    | none => .error "response body parse failed"
    | some res =>
      .ok ((((res.getKey "choices").arrGet 0).bind
        (fun choice =>
          ((choice.getKey "message").getKey "content").asStr)).getD "")
  else
    .error ("API call failed: " ++ resp.text)

/-- The Unicode White_Space predicate used by Rust's `char::is_whitespace`. -/
def rust_is_whitespace (c : Char) : Bool :=
  let n := c.toNat
  (9 ≤ n && n ≤ 13) || n = 32 || n = 133 || n = 160 || n = 5760 ||
  (8192 ≤ n && n ≤ 8202) || n = 8232 || n = 8233 || n = 8239 ||
  n = 8287 || n = 12288

/-- Rust `str::trim`: drop leading and trailing whitespace characters. -/
def rustTrim (s : String) : String :=
  String.mk
    (((s.data.dropWhile rust_is_whitespace).reverse.dropWhile
      rust_is_whitespace).reverse)

/-- The profile file path hardcoded in `main` of `Experimental/main.rs`. -/
def userprofile_path : String := "memories/userprofile.txt"

/-- The backup profile path hardcoded in `main` of
`Experimental/main.rs`. -/
def backup_userprofile_path : String := "memories/userprofile_backup.txt"

/-- Result of one iteration of the `main` loop of `src/src/main.rs`: the
conversation log afterwards, the event trace of the iteration, and the
error propagated by `?` (if any). -/
structure TurnResultSrc where
  log : List ChatMessage
  trace : List Event
  err : Option String

/-- Result of one iteration of the `main` loop of `Experimental/main.rs`:
additionally carries the file system left by `update_profile`. -/
structure TurnResultExp where
  log : List ChatMessage
  fs : Fs
  trace : List Event
  err : Option String

/-- One iteration of the `main` loop of `src/src/main.rs`: trim the input,
append a user message only if it is non-empty, spawn `animate_thinking`,
call `query_gpt` (an error propagates via `?` before the stop signal is
sent), send the stop signal, await the animation task, render the response,
and append it as an assistant message only if non-empty after trimming.
`resp` is the HTTP response the service returns this turn. -/
def mainTurnSrc (log : List ChatMessage) (input : String)
    (resp : HttpResponse) : TurnResultSrc :=
  let user_input := rustTrim input
  let log1 := if user_input.isEmpty then log
              else log ++ [⟨"user", user_input⟩]
  let trace0 := (if user_input.isEmpty then ([] : List Event)
                 else [Event.appendUser user_input]) ++
                [Event.spawnIndicator, Event.request log1]
  match query_gpt resp with
  | .error e => ⟨log1, trace0 ++ [.errorExit e], some e⟩
  | .ok response =>
    let trace1 :=
      trace0 ++ [.signalStop, .awaitIndicator, .render response]
    if (rustTrim response).isEmpty then
      ⟨log1, trace1, none⟩
    else
      ⟨log1 ++ [⟨"assistant", response⟩],
        trace1 ++ [.appendAssistant response], none⟩

/-- One iteration of the `main` loop of `Experimental/main.rs`: as
`mainTurnSrc`, followed by `update_profile` on the fixed profile paths
(whose error also propagates via `?`). `profStatus` and `profParsed`
describe the reconciliation HTTP response and `m` the sequence-matcher
oracle. -/
def mainTurnExp (log : List ChatMessage) (fs : Fs) (input : String)
    (resp : HttpResponse) (profStatus : Nat) (profParsed : Option Json)
    (m : Matcher) : TurnResultExp :=
  let user_input := rustTrim input
  let log1 := if user_input.isEmpty then log
              else log ++ [⟨"user", user_input⟩]
  let trace0 := (if user_input.isEmpty then ([] : List Event)
                 else [Event.appendUser user_input]) ++
                [Event.spawnIndicator, Event.request log1]
  match query_gpt resp with
  | .error e => ⟨log1, fs, trace0 ++ [.errorExit e], some e⟩
  | .ok response =>
    let trace1 :=
      trace0 ++ [.signalStop, .awaitIndicator, .render response]
    let log2 := if (rustTrim response).isEmpty then log1
                else log1 ++ [⟨"assistant", response⟩]
    let trace2 :=
      trace1 ++ (if (rustTrim response).isEmpty then ([] : List Event)
                 else [.appendAssistant response])
    let pr := update_profile fs userprofile_path backup_userprofile_path
                profStatus profParsed m
    match pr.result with
    | .ok fs2 => ⟨log2, fs2, trace2 ++ pr.events, none⟩
    | .error e => ⟨log2, fs, trace2 ++ pr.events ++ [.errorExit e], some e⟩

/-- Scanning check, left to right, that every `render` event is preceded
by both a `signalStop` and an `awaitIndicator` event. -/
def stopBeforeRender : List Event → Bool → Bool → Bool
  | [], _, _ => true
  | e :: rest, sawStop, sawAwait =>
    match e with
    | .render _ =>
      sawStop && sawAwait && stopBeforeRender rest sawStop sawAwait
    | .signalStop => stopBeforeRender rest true sawAwait
    | .awaitIndicator => stopBeforeRender rest sawStop true
    | _ => stopBeforeRender rest sawStop sawAwait

/-- Result of the startup sequence: the initial conversation log and the
lines printed to standard error. -/
structure StartupResult where
  log : List ChatMessage
  stderrLines : List String

/-- The startup prompt handling of `main` (both files): read
`system_prompts/prompt.md`; on failure print
`"Failed to read initial prompt from file: {err}"` to standard error and
fall back to the empty string; push a system message only when the prompt
text is non-empty. `promptRead` is the outcome of
`read_initial_prompt("system_prompts/prompt.md")`. -/
def startup (promptRead : Except String String) : StartupResult :=
  let filePromptAndErrs : String × List String :=
    match promptRead with
    | .ok s => (s, [])
    | .error err =>
      ("", ["Failed to read initial prompt from file: " ++ err])
  let file_prompt := filePromptAndErrs.1
  { log := if file_prompt.isEmpty then []
           else [⟨"system", file_prompt⟩],
    stderrLines := filePromptAndErrs.2 }

/-- Rust `str::repeat`. -/
def strRepeat (s : String) : Nat → String
  | 0 => ""
  | n + 1 => s ++ strRepeat s n

/-- One non-stop iteration of the loop in `animate_thinking` (identical in
both `main.rs` files): the line printed and the updated `dots` counter.
At `dots == 6` the dots are cleared visually and the counter resets;
otherwise `dots` dots are printed and the counter increments. -/
def animate_frame (dots : Nat) : String × Nat :=
  if dots = 6 then ("\rThinking" ++ strRepeat " " 6, 0)
  else ("\rThinking" ++ strRepeat "." dots, dots + 1)

/-- The line printed (with trailing newline, via `println!`) when the stop
signal is observed. -/
def animate_clear_line : String := "\rThinking" ++ strRepeat " " 6 ++ " \n"

/-- An output of the `animate_thinking` task: a printed animation frame, a
100ms sleep, or the final clear line after which the task returns. -/
inductive AnimOut where
  | frame (line : String)
  | sleep100
  | clearAndReturn (line : String)
deriving DecidableEq

def AnimOut.isSleep : AnimOut → Bool
  | .sleep100 => true
  | _ => false

def AnimOut.isClear : AnimOut → Bool
  | .clearAndReturn _ => true
  | _ => false

/-- The task `animate_thinking(stop_signal)`: it polls `try_recv` at the
top of each loop iteration; `polls` is the number of polls made before the
stop signal is available, i.e. the signal is first observed at poll number
`polls`. Each non-stop iteration prints a frame and sleeps 100ms; the stop
iteration prints the clear line and returns. -/
def animate_thinking (polls dots : Nat) : List AnimOut :=
  match polls with
  | 0 => [.clearAndReturn animate_clear_line]
  | n + 1 =>
    .frame (animate_frame dots).1 :: .sleep100 ::
      animate_thinking n (animate_frame dots).2

/-- The `dots` counter after `n` non-stop iterations from the initial 0. -/
def dotsAfter : Nat → Nat
  | 0 => 0
  | n + 1 => (animate_frame (dotsAfter n)).2

/-- The frame printed at iteration `n` of a run in which the signal has not
yet arrived. -/
def frameAt (n : Nat) : String := (animate_frame (dotsAfter n)).1

/-! ## Helper lemmas -/

/-- A list of `n` replace opcodes has `n` non-equal spans. -/
theorem num_differences_replicate (n : Nat) :
    num_differences (List.replicate n ⟨"replace", 0, 0, 0, 0⟩) = n := by
  simp [num_differences, List.filter_replicate]

/-- Once both flags are set, the `stopBeforeRender` scan always succeeds. -/
theorem stopBeforeRender_true_true (l : List Event) :
    stopBeforeRender l true true = true := by
  induction l with
  | nil => rfl
  | cons e rest ih => cases e <;> simp [stopBeforeRender, ih]

/-- The events of `update_profile`: either none (initial read failed before
the request was sent) or exactly the one reconciliation-request event. -/
theorem update_profile_events_shape (fs : Fs) (up bp : String)
    (status : Nat) (parsed : Option Json) (m : Matcher) :
    (update_profile fs up bp status parsed m).events = [] ∨
    (update_profile fs up bp status parsed m).events =
      [Event.profileRequest update_data] := by
  unfold update_profile
  cases fs up with
  | none => exact .inl rfl
  | some original =>
    cases parsed with
    | none => exact .inr rfl
    | some body =>
      dsimp only
      by_cases hgt :
          num_differences (m original (user_profile_updated body)) > 200
      · rw [if_pos hgt]
        cases fs bp with
        | none => exact .inr rfl
        | some restored => exact .inr rfl
      · rw [if_neg hgt]
        exact .inr rfl

/-- Trace shape of a `src/src/main.rs` iteration whose request fails. -/
theorem mainTurnSrc_trace_error (log : List ChatMessage) (input : String)
    (resp : HttpResponse) (e : String)
    (hq : query_gpt resp = .error e) :
    (mainTurnSrc log input resp).trace =
      (if (rustTrim input).isEmpty then ([] : List Event)
       else [Event.appendUser (rustTrim input)]) ++
      [Event.spawnIndicator,
        Event.request (if (rustTrim input).isEmpty then log
          else log ++ [⟨"user", rustTrim input⟩]),
        Event.errorExit e] := by
  unfold mainTurnSrc
  rw [hq]
  dsimp only
  by_cases h : (rustTrim input).isEmpty <;> simp [h]

/-- Trace shape of a `src/src/main.rs` iteration whose request succeeds. -/
theorem mainTurnSrc_trace_ok (log : List ChatMessage) (input : String)
    (resp : HttpResponse) (r : String) (hq : query_gpt resp = .ok r) :
    (mainTurnSrc log input resp).trace =
      ((if (rustTrim input).isEmpty then ([] : List Event)
        else [Event.appendUser (rustTrim input)]) ++
       [Event.spawnIndicator,
         Event.request (if (rustTrim input).isEmpty then log
           else log ++ [⟨"user", rustTrim input⟩])]) ++
      [Event.signalStop, Event.awaitIndicator, Event.render r] ++
      (if (rustTrim r).isEmpty then ([] : List Event)
       else [Event.appendAssistant r]) := by
  unfold mainTurnSrc
  rw [hq]
  dsimp only
  by_cases h1 : (rustTrim input).isEmpty <;>
    by_cases h2 : (rustTrim r).isEmpty <;> simp [h1, h2]

/-- Trace shape of an `Experimental/main.rs` iteration whose request
fails. -/
theorem mainTurnExp_trace_error (log : List ChatMessage) (fs : Fs)
    (input : String) (resp : HttpResponse) (ps : Nat) (pp : Option Json)
    (m : Matcher) (e : String) (hq : query_gpt resp = .error e) :
    (mainTurnExp log fs input resp ps pp m).trace =
      (if (rustTrim input).isEmpty then ([] : List Event)
       else [Event.appendUser (rustTrim input)]) ++
      [Event.spawnIndicator,
        Event.request (if (rustTrim input).isEmpty then log
          else log ++ [⟨"user", rustTrim input⟩]),
        Event.errorExit e] := by
  unfold mainTurnExp
  rw [hq]
  dsimp only
  by_cases h : (rustTrim input).isEmpty <;> simp [h]

/-- Trace shape of an `Experimental/main.rs` iteration whose request
succeeds. -/
theorem mainTurnExp_trace_ok (log : List ChatMessage) (fs : Fs)
    (input : String) (resp : HttpResponse) (ps : Nat) (pp : Option Json)
    (m : Matcher) (r : String) (hq : query_gpt resp = .ok r) :
    (mainTurnExp log fs input resp ps pp m).trace =
      ((if (rustTrim input).isEmpty then ([] : List Event)
        else [Event.appendUser (rustTrim input)]) ++
       [Event.spawnIndicator,
         Event.request (if (rustTrim input).isEmpty then log
           else log ++ [⟨"user", rustTrim input⟩])]) ++
      [Event.signalStop, Event.awaitIndicator, Event.render r] ++
      ((if (rustTrim r).isEmpty then ([] : List Event)
        else [Event.appendAssistant r]) ++
       (update_profile fs userprofile_path backup_userprofile_path
         ps pp m).events ++
       (match (update_profile fs userprofile_path backup_userprofile_path
           ps pp m).result with
        | .ok _ => ([] : List Event)
        | .error e => [Event.errorExit e])) := by
  unfold mainTurnExp
  rw [hq]
  dsimp only
  cases hres : (update_profile fs userprofile_path
      backup_userprofile_path ps pp m).result with
  | _ =>
    by_cases h1 : (rustTrim input).isEmpty <;>
      by_cases h2 : (rustTrim r).isEmpty <;> simp [h1, h2]

/-- Log shape of a `src/src/main.rs` iteration whose request succeeds. -/
theorem mainTurnSrc_log_ok (log : List ChatMessage) (input : String)
    (resp : HttpResponse) (r : String) (hq : query_gpt resp = .ok r) :
    (mainTurnSrc log input resp).log =
      (if (rustTrim input).isEmpty then log
       else log ++ [⟨"user", rustTrim input⟩]) ++
      (if (rustTrim r).isEmpty then [] else [⟨"assistant", r⟩]) := by
  unfold mainTurnSrc
  rw [hq]
  dsimp only
  by_cases h1 : (rustTrim input).isEmpty <;>
    by_cases h2 : (rustTrim r).isEmpty <;> simp [h1, h2]

/-- Log shape of an `Experimental/main.rs` iteration whose request
succeeds. -/
theorem mainTurnExp_log_ok (log : List ChatMessage) (fs : Fs)
    (input : String) (resp : HttpResponse) (ps : Nat) (pp : Option Json)
    (m : Matcher) (r : String) (hq : query_gpt resp = .ok r) :
    (mainTurnExp log fs input resp ps pp m).log =
      (if (rustTrim input).isEmpty then log
       else log ++ [⟨"user", rustTrim input⟩]) ++
      (if (rustTrim r).isEmpty then [] else [⟨"assistant", r⟩]) := by
  unfold mainTurnExp
  rw [hq]
  dsimp only
  cases hres : (update_profile fs userprofile_path
      backup_userprofile_path ps pp m).result with
  | _ =>
    by_cases h1 : (rustTrim input).isEmpty <;>
      by_cases h2 : (rustTrim r).isEmpty <;> simp [h1, h2]

/-- Auxiliary: state transition of the `dots` counter is congruent to
counting modulo 7. -/
theorem dotsAfter_mod (n : Nat) : dotsAfter n = n % 7 := by
  induction n with
  | zero => rfl
  | succ n ih =>
    show (animate_frame (dotsAfter n)).2 = (n + 1) % 7
    rw [ih]
    unfold animate_frame
    by_cases h : n % 7 = 6 <;> simp [h] <;> omega

/-- Auxiliary: every run of `animate_thinking` performs exactly one 100ms
sleep per failed poll. -/
theorem animate_thinking_sleep_count (polls dots : Nat) :
    (animate_thinking polls dots).countP AnimOut.isSleep = polls := by
  induction polls generalizing dots with
  | zero => rfl
  | succ n ih =>
    simp [animate_thinking, List.countP_cons, AnimOut.isSleep, ih]

/-- Auxiliary: every run of `animate_thinking` ends with the single clear
line, after which the task returns. -/
theorem animate_thinking_ends_clear (polls dots : Nat) :
    ∃ pre, animate_thinking polls dots =
      pre ++ [AnimOut.clearAndReturn animate_clear_line] ∧
      ∀ o ∈ pre, AnimOut.isClear o = false := by
  induction polls generalizing dots with
  | zero => exact ⟨[], rfl, by simp⟩
  | succ n ih =>
    obtain ⟨pre, hpre, hclear⟩ := ih (animate_frame dots).2
    refine ⟨.frame (animate_frame dots).1 :: .sleep100 :: pre, ?_, ?_⟩
    · simp [animate_thinking, hpre]
    · intro o ho
      rcases List.mem_cons.mp ho with h | ho2
      · rw [h]
        rfl
      rcases List.mem_cons.mp ho2 with h | h
      · rw [h]
        rfl
      · exact hclear o h

/-! ## Claim theorems -/

/-- C1: decision rule of `update_profile`: with `k` non-equal spans between
current document `D` and the revision, `k > 200` restores the backup
content and `k ≤ 200` (in particular `k = 200`) writes the revision. -/
theorem update_profile_threshold_decision
    (fs : Fs) (up bp D B : String) (status : Nat) (body : Json)
    (m : Matcher) (k : Nat)
    (hD : fs up = some D) (hB : fs bp = some B)
    (hk : num_differences (m D (user_profile_updated body)) = k) :
    (k > 200 →
      (update_profile fs up bp status (some body) m).result =
        .ok (fsWrite fs up B)) ∧
    (k ≤ 200 →
      (update_profile fs up bp status (some body) m).result =
        .ok (fsWrite fs up (user_profile_updated body))) := by
  subst hk
  constructor
  · intro hgt
    simp only [update_profile, hD, hB]
    rw [if_pos hgt]
  · intro hle
    simp only [update_profile, hD]
    rw [if_neg (by omega)]

/-- Witness for C1 at the boundary `k = 200`: a matcher producing exactly
200 non-equal spans accepts the revision. -/
theorem update_profile_threshold_decision_witness :
    ((200 : Nat) ≤ 200) ∧
    (update_profile (fun _ => some "old") "p" "b" 500 (some (.str "x"))
        (fun _ _ => List.replicate 200 ⟨"replace", 0, 0, 0, 0⟩)).result =
      .ok (fsWrite (fun _ => some "old") "p" "") := by
  refine ⟨le_refl 200, ?_⟩
  have h := update_profile_threshold_decision (fun _ => some "old") "p" "b"
    "old" "old" 500 (.str "x")
    (fun _ _ => List.replicate 200 ⟨"replace", 0, 0, 0, 0⟩) 200
    rfl rfl (num_differences_replicate 200)
  have h2 := h.2 (le_refl 200)
  simpa [user_profile_updated, Json.getKey, Json.getIdx, Json.asStr]
    using h2

/-- C2 counterexample: a turn whose completion request fails propagates the
error via `?` before `tx.send(())` is reached, so no stop signal is sent
and the indicator task is not awaited on that path — in both `main.rs`
files (the claim asserts the coordinator signals stop on error arrivals
too). -/
theorem turn_error_no_stop_signal_cex :
    query_gpt ⟨500, "boom", none⟩ = .error "API call failed: boom" ∧
    Event.signalStop ∉
      (mainTurnExp [] (fun _ => none) "hi" ⟨500, "boom", none⟩ 500 none
        (fun _ _ => [])).trace ∧
    Event.awaitIndicator ∉
      (mainTurnExp [] (fun _ => none) "hi" ⟨500, "boom", none⟩ 500 none
        (fun _ _ => [])).trace ∧
    Event.signalStop ∉ (mainTurnSrc [] "hi" ⟨500, "boom", none⟩).trace := by
  refine ⟨rfl, ?_, ?_, ?_⟩
  · rw [mainTurnExp_trace_error [] (fun _ => none) "hi" ⟨500, "boom", none⟩
      500 none (fun _ _ => []) "API call failed: boom" rfl]
    decide
  · rw [mainTurnExp_trace_error [] (fun _ => none) "hi" ⟨500, "boom", none⟩
      500 none (fun _ _ => []) "API call failed: boom" rfl]
    decide
  · rw [mainTurnSrc_trace_error [] "hi" ⟨500, "boom", none⟩
      "API call failed: boom" rfl]
    decide

/-- C2 (amended): in both `main.rs` files, every `render` event is preceded
by a `signalStop` and an `awaitIndicator` event; when the completion
request succeeds the coordinator signals stop and awaits the indicator
immediately before rendering; when it fails the turn aborts with no render
event and no stop signal. -/
theorem turn_stop_before_render (log : List ChatMessage) (fs : Fs)
    (input : String) (resp : HttpResponse) (ps : Nat) (pp : Option Json)
    (m : Matcher) :
    stopBeforeRender (mainTurnExp log fs input resp ps pp m).trace
      false false = true ∧
    stopBeforeRender (mainTurnSrc log input resp).trace false false =
      true ∧
    (∀ r, query_gpt resp = .ok r →
      (∃ pre post, (mainTurnExp log fs input resp ps pp m).trace =
        pre ++ [Event.signalStop, Event.awaitIndicator, Event.render r] ++
          post) ∧
      (∃ pre post, (mainTurnSrc log input resp).trace =
        pre ++ [Event.signalStop, Event.awaitIndicator, Event.render r] ++
          post)) ∧
    (∀ e, query_gpt resp = .error e →
      (∀ r,
        Event.render r ∉ (mainTurnExp log fs input resp ps pp m).trace ∧
        Event.render r ∉ (mainTurnSrc log input resp).trace) ∧
      Event.signalStop ∉ (mainTurnExp log fs input resp ps pp m).trace ∧
      Event.signalStop ∉ (mainTurnSrc log input resp).trace) := by
  cases hq : query_gpt resp with
  | error e =>
    rw [mainTurnExp_trace_error log fs input resp ps pp m e hq,
      mainTurnSrc_trace_error log input resp e hq]
    refine ⟨?_, ?_, ?_, ?_⟩
    · by_cases h : (rustTrim input).isEmpty <;> simp [h, stopBeforeRender]
    · by_cases h : (rustTrim input).isEmpty <;> simp [h, stopBeforeRender]
    · intro r hr
      exact absurd hr (by simp)
    · intro e2 he2
      by_cases h : (rustTrim input).isEmpty <;> simp [h]
  | ok r =>
    rw [mainTurnExp_trace_ok log fs input resp ps pp m r hq,
      mainTurnSrc_trace_ok log input resp r hq]
    refine ⟨?_, ?_, ?_, ?_⟩
    · by_cases h : (rustTrim input).isEmpty <;>
        simp [h, stopBeforeRender, stopBeforeRender_true_true]
    · by_cases h1 : (rustTrim input).isEmpty <;>
        by_cases h2 : (rustTrim r).isEmpty <;>
          simp [h1, h2, stopBeforeRender, stopBeforeRender_true_true]
    · intro r2 hr2
      obtain rfl : r2 = r := by
        injection hr2 with h
        exact h.symm
      constructor
      · refine ⟨(if (rustTrim input).isEmpty then ([] : List Event)
            else [Event.appendUser (rustTrim input)]) ++
            [Event.spawnIndicator,
              Event.request (if (rustTrim input).isEmpty then log
                else log ++ [⟨"user", rustTrim input⟩])],
          (if (rustTrim r2).isEmpty then ([] : List Event)
            else [Event.appendAssistant r2]) ++
            (update_profile fs userprofile_path backup_userprofile_path
              ps pp m).events ++
            (match (update_profile fs userprofile_path
                backup_userprofile_path ps pp m).result with
             | .ok _ => ([] : List Event)
             | .error e => [Event.errorExit e]), ?_⟩
        simp
      · refine ⟨(if (rustTrim input).isEmpty then ([] : List Event)
            else [Event.appendUser (rustTrim input)]) ++
            [Event.spawnIndicator,
              Event.request (if (rustTrim input).isEmpty then log
                else log ++ [⟨"user", rustTrim input⟩])],
          (if (rustTrim r2).isEmpty then ([] : List Event)
            else [Event.appendAssistant r2]), ?_⟩
        simp
    · intro e2 he2
      exact absurd he2 (by simp)

/-- Witness for C2 on a succeeding turn: the stop/await/render events
appear consecutively in the trace. -/
theorem turn_stop_before_render_witness :
    ∃ pre post,
      (mainTurnExp [] (fun _ => none) "hi" ⟨200, "", some .null⟩ 200 none
        (fun _ _ => [])).trace =
        pre ++ [Event.signalStop, Event.awaitIndicator, Event.render ""] ++
          post :=
  ((turn_stop_before_render [] (fun _ => none) "hi" ⟨200, "", some .null⟩
    200 none (fun _ _ => [])).2.2.1 "" rfl).1

/-- C3: empty-after-trimming input appends no user message yet the request
is still issued against the unchanged log; non-empty input appends exactly
one user message (the trimmed line) before the request — in both files. -/
theorem turn_input_append_request (log : List ChatMessage) (fs : Fs)
    (input : String) (resp : HttpResponse) (ps : Nat) (pp : Option Json)
    (m : Matcher) :
    ((rustTrim input).isEmpty = true →
      Event.request log ∈ (mainTurnExp log fs input resp ps pp m).trace ∧
      Event.request log ∈ (mainTurnSrc log input resp).trace ∧
      ((mainTurnExp log fs input resp ps pp m).trace.countP
        Event.isAppendUser = 0) ∧
      ((mainTurnSrc log input resp).trace.countP
        Event.isAppendUser = 0)) ∧
    ((rustTrim input).isEmpty = false →
      Event.request (log ++ [⟨"user", rustTrim input⟩]) ∈
        (mainTurnExp log fs input resp ps pp m).trace ∧
      Event.request (log ++ [⟨"user", rustTrim input⟩]) ∈
        (mainTurnSrc log input resp).trace ∧
      ((mainTurnExp log fs input resp ps pp m).trace.countP
        Event.isAppendUser = 1) ∧
      ((mainTurnSrc log input resp).trace.countP
        Event.isAppendUser = 1)) := by
  have hev := update_profile_events_shape fs userprofile_path
    backup_userprofile_path ps pp m
  cases hq : query_gpt resp with
  | error e =>
    rw [mainTurnExp_trace_error log fs input resp ps pp m e hq,
      mainTurnSrc_trace_error log input resp e hq]
    constructor
    · intro h
      simp [h, List.countP_cons, Event.isAppendUser]
    · intro h
      simp [h, List.countP_cons, Event.isAppendUser]
  | ok r =>
    rw [mainTurnExp_trace_ok log fs input resp ps pp m r hq,
      mainTurnSrc_trace_ok log input resp r hq]
    cases hres : (update_profile fs userprofile_path
        backup_userprofile_path ps pp m).result with
    | _ =>
      rcases hev with hev | hev <;>
        rw [hev] <;>
        constructor <;>
          intro h <;>
            by_cases h2 : (rustTrim r).isEmpty <;>
              simp [h, h2, List.countP_cons, Event.isAppendUser]

/-- Witness for C3: a whitespace-only line issues the request on the
unchanged log; a non-empty line appends one user message first. -/
theorem turn_input_append_request_witness :
    Event.request [] ∈
      (mainTurnSrc [] "   " ⟨200, "", some .null⟩).trace ∧
    Event.request [⟨"user", "hi"⟩] ∈
      (mainTurnSrc [] "hi" ⟨200, "", some .null⟩).trace := by
  constructor
  · exact ((turn_input_append_request [] (fun _ => none) "   "
      ⟨200, "", some .null⟩ 200 none (fun _ _ => [])).1 (by decide)).2.1
  · have h := ((turn_input_append_request [] (fun _ => none) "hi"
      ⟨200, "", some .null⟩ 200 none (fun _ _ => [])).2 (by decide)).2.1
    simpa using h

/-- C4: when the completion request succeeds with response `r`, the log
after the turn is the pre-request log extended by an assistant message
carrying `r` exactly when `r` is non-empty after trimming (a blank reply
leaves the log unchanged) — in both files. -/
theorem turn_assistant_append_iff (log : List ChatMessage) (fs : Fs)
    (input : String) (resp : HttpResponse) (ps : Nat) (pp : Option Json)
    (m : Matcher) (r : String) (hq : query_gpt resp = .ok r) :
    (mainTurnExp log fs input resp ps pp m).log =
      (if (rustTrim input).isEmpty then log
       else log ++ [⟨"user", rustTrim input⟩]) ++
      (if (rustTrim r).isEmpty then [] else [⟨"assistant", r⟩]) ∧
    (mainTurnSrc log input resp).log =
      (if (rustTrim input).isEmpty then log
       else log ++ [⟨"user", rustTrim input⟩]) ++
      (if (rustTrim r).isEmpty then [] else [⟨"assistant", r⟩]) :=
  ⟨mainTurnExp_log_ok log fs input resp ps pp m r hq,
    mainTurnSrc_log_ok log input resp r hq⟩

/-- Witness for C4: a whitespace-only reply leaves the log unchanged. -/
theorem turn_assistant_append_iff_witness :
    (mainTurnSrc [] "hi" ⟨200, "", some .null⟩).log =
      [⟨"user", "hi"⟩] := by
  have h := (turn_assistant_append_iff [] (fun _ => none) "hi"
    ⟨200, "", some .null⟩ 200 none (fun _ _ => []) "" rfl).2
  simpa using h

/-- C5: a non-success status with body text `B` makes `query_gpt` return an
error (never a reply) whose message is exactly `"API call failed: " ++ B`,
which therefore contains `B` after the fixed prefix. -/
theorem query_gpt_error_message (resp : HttpResponse)
    (h : status_is_success resp.status = false) :
    query_gpt resp = .error ("API call failed: " ++ resp.text) := by
  unfold query_gpt
  rw [h]
  rfl

/-- Witness for C5: a 500 status with body `"rate limited"`. -/
theorem query_gpt_error_message_witness :
    query_gpt ⟨500, "rate limited", none⟩ =
      .error "API call failed: rate limited" :=
  query_gpt_error_message ⟨500, "rate limited", none⟩ (by decide)

/-- C6: every profile-reconciliation request event carries exactly the
fixed two-message exchange `update_data` (system `"Profile_check"`, user
`"user_chat_log_content"`), for every conversation log, input and turn;
and the request is actually sent whenever the completion request succeeded
and the profile file is readable. -/
theorem profile_request_messages_fixed (log : List ChatMessage) (fs : Fs)
    (input : String) (resp : HttpResponse) (ps : Nat) (pp : Option Json)
    (m : Matcher) :
    (∀ msgs, Event.profileRequest msgs ∈
        (mainTurnExp log fs input resp ps pp m).trace →
      msgs = update_data) ∧
    (∀ r D, query_gpt resp = .ok r → fs userprofile_path = some D →
      Event.profileRequest update_data ∈
        (mainTurnExp log fs input resp ps pp m).trace) := by
  constructor
  · cases hq : query_gpt resp with
    | error e =>
      rw [mainTurnExp_trace_error log fs input resp ps pp m e hq]
      intro msgs h
      by_cases hin : (rustTrim input).isEmpty <;> simp [hin] at h
    | ok r =>
      rw [mainTurnExp_trace_ok log fs input resp ps pp m r hq]
      rcases update_profile_events_shape fs userprofile_path
          backup_userprofile_path ps pp m with hev | hev <;>
        rw [hev] <;>
        cases hres : (update_profile fs userprofile_path
            backup_userprofile_path ps pp m).result with
      | _ =>
        intro msgs h
        by_cases hin : (rustTrim input).isEmpty <;>
          by_cases hr : (rustTrim r).isEmpty <;>
            simp [hin, hr] at h <;> simp_all
  · intro r D hq hD
    have hev : (update_profile fs userprofile_path
        backup_userprofile_path ps pp m).events =
        [Event.profileRequest update_data] := by
      unfold update_profile
      rw [hD]
      cases pp with
      | none => rfl
      | some body =>
        dsimp only
        by_cases hgt :
            num_differences (m D (user_profile_updated body)) > 200
        · rw [if_pos hgt]
          cases fs backup_userprofile_path with
          | none => rfl
          | some restored => rfl
        · rw [if_neg hgt]
    rw [mainTurnExp_trace_ok log fs input resp ps pp m r hq, hev]
    simp

/-- Witness for C6: a concrete turn with a live conversation log still
sends the fixed placeholder exchange. -/
theorem profile_request_messages_fixed_witness :
    Event.profileRequest update_data ∈
      (mainTurnExp [⟨"user", "real history"⟩] (fun _ => some "profile")
        "hi" ⟨200, "", some .null⟩ 500 (some .null)
        (fun _ _ => [])).trace :=
  (profile_request_messages_fixed [⟨"user", "real history"⟩]
    (fun _ => some "profile") "hi" ⟨200, "", some .null⟩ 500 (some .null)
    (fun _ _ => [])).2 "" "profile" rfl rfl

/-- C7 counterexample: the animation cycle of `animate_thinking` is not 6
steps: the frame printed at iteration 6 (the dots-clearing frame produced
by the `dots == 6` branch) differs from the frame at iteration 0, so the
visual cycle does not repeat with period 6. -/
theorem animate_cycle_not_six_steps_cex :
    frameAt 6 ≠ frameAt 0 ∧ dotsAfter 6 = 6 ∧ dotsAfter 7 = 0 := by
  refine ⟨?_, rfl, rfl⟩
  decide

/-- C7 (amended): `animate_thinking` repeats a fixed visual cycle of
exactly 7 steps (frames of 0 to 5 dots, then a dots-clearing frame),
sleeping 100ms per step; it polls the stop signal once per step, so every
run performs exactly one sleep per failed poll (worst-case latency between
signal availability and observed stop is one 100ms step), and on observing
the signal it prints the clear line once, as its final output, and
returns. -/
theorem animate_cycle_seven (n polls : Nat) :
    dotsAfter (n + 7) = dotsAfter n ∧
    frameAt (n + 7) = frameAt n ∧
    (animate_thinking polls 0).countP AnimOut.isSleep = polls ∧
    (∃ pre, animate_thinking polls 0 =
      pre ++ [AnimOut.clearAndReturn animate_clear_line] ∧
      ∀ o ∈ pre, AnimOut.isClear o = false) := by
  have hmod : dotsAfter (n + 7) = dotsAfter n := by
    rw [dotsAfter_mod, dotsAfter_mod, Nat.add_mod_right]
  exact ⟨hmod, by unfold frameAt; rw [hmod],
    animate_thinking_sleep_count polls 0,
    animate_thinking_ends_clear polls 0⟩

/-- C8: `update_profile` only ever writes the current profile file: every
write in its file-operation trace targets `userprofile`, and on success the
resulting file system agrees with the original on every other path (in
particular the backup file is never written or modified). -/
theorem update_profile_writes_only_profile
    (fs : Fs) (up bp : String) (status : Nat) (parsed : Option Json)
    (m : Matcher) :
    (((update_profile fs up bp status parsed m).ops.filter
        FileOp.isWrite).all (fun op => op.opPath == up) = true) ∧
    (∀ fs2, (update_profile fs up bp status parsed m).result = .ok fs2 →
      ∀ q, q ≠ up → fs2 q = fs q) := by
  unfold update_profile
  cases hD : fs up with
  | none => exact ⟨rfl, by intro fs2 h; exact absurd h (by simp)⟩
  | some original =>
    cases parsed with
    | none => exact ⟨rfl, by intro fs2 h; exact absurd h (by simp)⟩
    | some body =>
      dsimp only
      by_cases hgt :
          num_differences (m original (user_profile_updated body)) > 200
      · rw [if_pos hgt]
        cases hB : fs bp with
        | none => exact ⟨rfl, by intro fs2 h; exact absurd h (by simp)⟩
        | some restored =>
          refine ⟨by simp [FileOp.isWrite, FileOp.opPath], ?_⟩
          intro fs2 h q hq
          simp only [Except.ok.injEq] at h
          subst h
          simp [fsWrite, hq]
      · rw [if_neg hgt]
        refine ⟨by simp [FileOp.isWrite, FileOp.opPath], ?_⟩
        intro fs2 h q hq
        simp only [Except.ok.injEq] at h
        subst h
        simp [fsWrite, hq]

/-- Witness for C8 on a concrete run: the backup path is untouched. -/
theorem update_profile_writes_only_profile_witness :
    (fsWrite (fun _ => some "old") "p" "") "b" = some "old" := by
  have h := (update_profile_writes_only_profile (fun _ => some "old")
    "p" "b" 200 (some (.str "x")) (fun _ _ => [])).2
    (fsWrite (fun _ => some "old") "p" "") rfl "b" (by decide)
  simpa using h

/-- C9: a failed initial-prompt read is non-fatal: the conversation starts
with an empty log (zero system messages), one error line goes to standard
error, and in general a system message is present exactly when the file
read yields non-empty content. -/
theorem startup_prompt_error_recovery :
    (∀ err, startup (.error err) =
      ⟨[], ["Failed to read initial prompt from file: " ++ err]⟩) ∧
    (∀ s, (startup (.ok s)).log =
      if s.isEmpty then [] else [⟨"system", s⟩]) := by
  constructor
  · intro err
    rfl
  · intro s
    rfl

/-- C10: `update_profile` never inspects the HTTP status of the
reconciliation response — for any parsed body the outcome is the same under
any two statuses — and a body carrying no first-candidate content string
defaults the revised profile text to the empty string, so such a body is
processed exactly like a response whose extracted revision is `""`. -/
theorem update_profile_ignores_status
    (fs : Fs) (up bp : String) (s s2 : Nat) (body : Json) (m : Matcher)
    (h : ((((body.getKey "choices").getIdx 0).getKey "message").getKey
      "content").asStr = none) :
    (∀ parsed, update_profile fs up bp s parsed m =
      update_profile fs up bp s2 parsed m) ∧
    user_profile_updated body = "" ∧
    update_profile fs up bp s (some body) m =
      update_profile fs up bp s (some .null) m := by
  have hupd : user_profile_updated body = "" := by
    unfold user_profile_updated
    rw [h]
    rfl
  refine ⟨fun parsed => rfl, hupd, ?_⟩
  unfold update_profile
  cases fs up with
  | none => rfl
  | some original =>
    dsimp only
    rw [hupd, show user_profile_updated Json.null = "" from rfl]

/-- Witness for C10 on a JSON error body (no `choices` content). -/
theorem update_profile_ignores_status_witness :
    user_profile_updated (.obj [("error", .str "rate limited")]) = "" :=
  (update_profile_ignores_status (fun _ => none) "p" "b" 500 200
    (.obj [("error", .str "rate limited")]) (fun _ _ => [])
    (by simp [Json.getKey, Json.getIdx, Json.asStr])).2.1

end RustChat
